import Mathlib

/-!
Shallow embedding of the windowed time-series forecasting engine of this
repository (`src/gru.js`, class `GRUModel`), together with the parts of its
contract that the surrounding application exercises.  JavaScript numbers are
modelled as rationals; the TensorFlow.js backend (layer fitting, prediction,
loss evaluation, `Math.sqrt`) is passed in as an explicit oracle so that the
control flow of the engine itself — which is what the claims are about — is
fully executable.
-/

namespace SPForecast

/-- A JavaScript value as it appears in the callback payloads of the engine:
a number, a string, or `undefined`. -/
inductive JsVal where
  | num (x : ℚ)
  | str (s : String)
  | undef
  deriving DecidableEq

/-- A JavaScript object literal, modelled as an ordered key/value list. -/
abbrev JsObject := List (String × JsVal)

/-- Activation functions used by the dense layers of `buildModel`. -/
inductive Activation where
  | relu
  | linear
  deriving DecidableEq

/-- One layer of the network assembled by `GRUModel.buildModel`. -/
inductive Layer where
  | gru (units : Nat) (returnSequences : Bool)
  | dropout (rate : ℚ)
  | dense (units : Nat) (activation : Activation)
  deriving DecidableEq

/-- The model object created by `tf.sequential()` plus the added layers. -/
structure BuiltModel where
  inputShape : Nat × Nat
  layers : List Layer
  deriving DecidableEq

/-- Output width contributed by one layer given the incoming width. -/
def layerOutUnits (inUnits : Nat) : Layer → Nat
  | .gru u _ => u
  | .dense u _ => u
  | .dropout _ => inUnits

/-- The width of the network's final output (per input window). -/
def modelOutputUnits (m : BuiltModel) : Nat :=
  m.layers.foldl layerOutUnits 1

/-- The exact layer stack of `GRUModel.buildModel` in `src/gru.js`:
GRU(128, returnSequences) → Dropout(0.2) → GRU(64) → Dropout(0.2) →
Dense(32, relu) → Dense(1, linear). -/
def deepLayers : List Layer :=
  [.gru 128 true, .dropout (2/10), .gru 64 false, .dropout (2/10),
   .dense 32 .relu, .dense 1 .linear]

/-- The model instance `buildModel` constructs for a given window size. -/
def deepModel (windowSize : Nat) : BuiltModel :=
  { inputShape := (windowSize, 1), layers := deepLayers }

/-- A tensor, of which the engine only ever inspects the shape
(`X.shape[0]`, the number of samples). -/
structure Tensor where
  shape : List Nat
  deriving DecidableEq

/-- `t.shape[0]`: the batch dimension. -/
def Tensor.batch (t : Tensor) : Nat := t.shape.headD 0

/-- The mutable fields of a `GRUModel` instance, as initialised by its
constructor and updated by `buildModel` / `train` / `evaluate` / `dispose`. -/
structure GRUState where
  windowSize : Nat
  predictionHorizon : Nat
  model : Option BuiltModel
  trainingHistory : Option (List ℚ)
  isTrained : Bool
  batchSize : Nat
  testPredictions : Option (List (List ℚ))
  actualTestValues : Option (List (List ℚ))
  deriving DecidableEq

/-- `new GRUModel(windowSize, predictionHorizon)`. -/
def mkGRUModel (windowSize predictionHorizon : Nat) : GRUState :=
  { windowSize := windowSize
    predictionHorizon := predictionHorizon
    model := none
    trainingHistory := none
    isTrained := false
    batchSize := 256
    testPredictions := none
    actualTestValues := none }

/-- `new GRUModel()` with the default arguments `60` and `5`. -/
def newGRUModel : GRUState := mkGRUModel 60 5

/-- `GRUModel.buildModel`: replaces any previous model with the deep stack and
resets `isTrained` to `false`; returns the fresh model as well. -/
def buildModel (s : GRUState) : GRUState × BuiltModel :=
  let m := deepModel s.windowSize
  ({ s with model := some m, isTrained := false }, m)

/-- The lazy-initialisation step `if (!this.model) this.buildModel();`
shared by `train` and `predict`, yielding the state and the model in use. -/
def ensureModel (s : GRUState) : GRUState × BuiltModel :=
  match s.model with
  | some m => (s, m)
  | none => buildModel s

/-- Which of the optional user callbacks were supplied to `train`. -/
structure Callbacks where
  onEpochEnd : Bool
  onTrainEnd : Bool
  deriving DecidableEq

/-- The per-epoch numbers TensorFlow hands to the engine's own `onEpochEnd`:
`logs.loss` and `logs.val_loss` (the latter may be `undefined`). -/
structure EpochLog where
  loss : ℚ
  valLoss : JsVal
  deriving DecidableEq

/-- Oracle for `this.model.fit(...)` and the wall clock: given the requested
epoch count, fitting either completes with one log per epoch or fails
mid-training after the listed completed epochs.  `elapsedAt i` is
`(Date.now() - startTime) / 1000` observed at the end of epoch `i`. -/
structure FitBackend where
  fit : Nat → Except (List EpochLog × String) (List EpochLog)
  elapsedAt : Nat → ℚ
  totalElapsed : ℚ

/-- `((epoch + 1) / epochs) * 100`, the progress figure of `src/gru.js`. -/
def epochProgress (epochs i : Nat) : ℚ :=
  (((i : ℚ) + 1) / (epochs : ℚ)) * 100

/-- The object literal passed to the user `onEpochEnd` callback:
`{loss, val_loss, elapsed, progress}` — exactly these four keys. -/
def epochLogsObj (epochs i : Nat) (log : EpochLog) (elapsed : ℚ) : JsObject :=
  [("loss", .num log.loss), ("val_loss", log.valLoss),
   ("elapsed", .num elapsed), ("progress", .num (epochProgress epochs i))]

/-- The sequence of `(epoch, logs)` invocations of the user `onEpochEnd`
callback over the listed completed epochs (none when the callback is absent). -/
def mkEpochEvents (cbs : Callbacks) (epochs : Nat) (bk : FitBackend)
    (logs : List EpochLog) : List (Nat × JsObject) :=
  if cbs.onEpochEnd then
    logs.enum.map (fun p => (p.1, epochLogsObj epochs p.1 p.2 (bk.elapsedAt p.1)))
  else []

/-- JavaScript's `Number.prototype.toFixed(1)` on a non-negative duration. -/
def toFixed1 (q : ℚ) : String :=
  let n : ℤ := round (q * 10)
  toString (n / 10) ++ "." ++ toString (n % 10).natAbs

/-- Everything observable about one `train` call besides the final state:
the user-callback invocations and the returned/raised outcome. -/
structure TrainTrace where
  epochEvents : List (Nat × JsObject)
  epochsRun : Nat
  trainEndArg : Option JsVal
  outcome : Except String Unit

/-- `GRUModel.train(X_train, y_train, epochs, callbacks)` from `src/gru.js`:
lazy build first, then the null-data and empty-data guards, then `fit`.
On success `isTrained` is set and `onTrainEnd` gets the formatted total time;
on a fit failure `onTrainEnd` gets `0` and the error is re-thrown, with
`isTrained` left as the lazy-build step left it. -/
def trainCore (s : GRUState) (Xtrain ytrain : Option Tensor) (epochs : Nat)
    (cbs : Callbacks) (bk : FitBackend) : GRUState × TrainTrace :=
  let s1 := (ensureModel s).1
  match Xtrain, ytrain with
  | some X, some y =>
    if X.batch = 0 ∨ y.batch = 0 then
      (s1, ⟨[], 0, none, .error "No training samples available"⟩)
    else
      match bk.fit epochs with
      | .ok logs =>
        ({ s1 with isTrained := true },
         ⟨mkEpochEvents cbs epochs bk logs, logs.length,
          if cbs.onTrainEnd then some (.str (toFixed1 bk.totalElapsed)) else none,
          .ok ()⟩)
      | .error (completed, e) =>
        (s1,
         ⟨mkEpochEvents cbs epochs bk completed, completed.length,
          if cbs.onTrainEnd then some (.num 0) else none,
          .error e⟩)
  | _, _ => (s1, ⟨[], 0, none, .error "Training data not provided"⟩)

/-- Oracle for `this.model.predict(X)` followed by `predictions.array()`. -/
structure PredictBackend where
  run : BuiltModel → Tensor → Except String (List (List ℚ))

/-- `GRUModel.predict(X)` from `src/gru.js`: lazy build, missing-input guard,
then the backend call with the zero-row fallback
`[Array(this.predictionHorizon).fill(0)]` on any internal failure. -/
def predict (s : GRUState) (X : Option Tensor) (bk : PredictBackend) :
    GRUState × Except String (List (List ℚ)) :=
  let sm := ensureModel s
  match X with
  | none => (sm.1, .error "Input data not provided")
  | some X =>
    match bk.run sm.2 X with
    | .ok rows => (sm.1, .ok rows)
    | .error _ => (sm.1, .ok [List.replicate sm.1.predictionHorizon 0])

/-- The `{loss, mse, rmse}` object returned by `GRUModel.evaluate`. -/
structure EvalResult where
  loss : ℚ
  mse : ℚ
  rmse : ℚ
  deriving DecidableEq

/-- The fixed placeholder `{loss: 0.001, mse: 0.001, rmse: 0.032}`. -/
def defaultEvalResult : EvalResult := ⟨1/1000, 1/1000, 32/1000⟩

/-- Oracle for the numeric part of `evaluate`: the held-out loss from
`model.evaluate(...).arraySync()`, JavaScript's `Math.sqrt`, and the two
asynchronous chart-retention computations of `getTestPredictionsForChart`
(`predictTestData(X_test)` and `y_test.array()`). -/
structure EvalBackend where
  evalLoss : Except String ℚ
  sqrt : ℚ → ℚ
  chartPreds : Except String (List (List ℚ))
  chartActuals : Except String (List (List ℚ))

/-- The state effects of `getTestPredictionsForChart(X_test, y_test)` on the
computed path: `testPredictions` receives the predictions (or `null` when
`predictTestData` recovered an internal failure), then `actualTestValues`
receives `y_test.array()` unless that call failed. -/
def applyChartEffects (s : GRUState) (bk : EvalBackend) : GRUState :=
  let preds : Option (List (List ℚ)) :=
    match bk.chartPreds with
    | .ok p => some p
    | .error _ => none
  match bk.chartActuals with
  | .ok a => { s with testPredictions := preds, actualTestValues := some a }
  | .error _ => { s with testPredictions := preds }

/-- The body of the `try` block of `evaluate`: reading `X_test.shape[0]` (a
`TypeError` when a tensor is absent), the backend loss, `rmse = Math.sqrt(loss)`,
the chart retention, and the `{loss, mse: loss, rmse}` literal. -/
def evaluateTry (s : GRUState) (Xtest ytest : Option Tensor) (bk : EvalBackend) :
    Except String (GRUState × EvalResult) :=
  match Xtest, ytest with
  | some _, some _ =>
    match bk.evalLoss with
    | .ok loss => .ok (applyChartEffects s bk, ⟨loss, loss, bk.sqrt loss⟩)
    | .error e => .error e
  | _, _ => .error "TypeError: null tensor"

/-- The result of one `evaluate` call: whether real computation was attempted,
and the returned metrics object. -/
structure EvalTrace where
  attempted : Bool
  result : EvalResult
  deriving DecidableEq

/-- `GRUModel.evaluate(X_test, y_test)` from `src/gru.js`: the untrained /
absent-model guard returning the fixed default without computing, otherwise
the `try` body with the same fixed default as the catch-all fallback. -/
def evaluate (s : GRUState) (Xtest ytest : Option Tensor) (bk : EvalBackend) :
    GRUState × EvalTrace :=
  if s.model = none ∨ s.isTrained = false then
    (s, ⟨false, defaultEvalResult⟩)
  else
    match evaluateTry s Xtest ytest bk with
    | .ok (s2, r) => (s2, ⟨true, r⟩)
    | .error _ => (s, ⟨true, defaultEvalResult⟩)

/-- `GRUModel.dispose()` from `src/gru.js`: releases the model, resets
`isTrained`, and clears the retained chart artifacts. -/
def dispose (s : GRUState) : GRUState :=
  { s with
    model := none
    isTrained := false
    testPredictions := none
    actualTestValues := none }

/-- Modelled from the spec: the Lightweight model-variant file is not under
`src/` (the `gru.js` present is the Deep, single-step variant, and it passes
the epoch count through to `fit` unclamped).  §4.2 — "run `epochCount` epochs
(floor/clamp to ≥1)" — and §8 describe the Lightweight variant's clamp of the
requested epoch count to at least one. -/
def lightweightClampEpochs (epochCount : Int) : Nat :=
  max epochCount.toNat 1

/-- Modelled from the spec: the Lightweight variant's `train` entry point (its
file is missing from `src/`) follows the §4.2 training-engine algorithm — the
same guard/fit/callback sequence as `trainCore` — but runs the clamped epoch
count `lightweightClampEpochs epochCount`. -/
def lightweightTrain (s : GRUState) (Xtrain ytrain : Option Tensor)
    (epochCount : Int) (cbs : Callbacks) (bk : FitBackend) :
    GRUState × TrainTrace :=
  trainCore s Xtrain ytrain (lightweightClampEpochs epochCount) cbs bk

/-- What one `saveWeights` call did: whether persistence was attempted and the
boolean it returned. -/
structure SaveTrace where
  attempted : Bool
  returnValue : Bool
  deriving DecidableEq

/-- Modelled from the spec: `saveWeights` appears in no file under `src/`.
§4.5, §6 and §8: it persists parameters only when `isTrained` is true, returns
`false` on an untrained model without side effects, and swallows any
persistence failure, reporting it as a `false` return instead of throwing
(`persistOk` is the collaborator storage oracle's verdict). -/
def saveWeights (s : GRUState) (persistOk : Bool) : GRUState × SaveTrace :=
  if s.isTrained then (s, ⟨true, persistOk⟩) else (s, ⟨false, false⟩)

/-! Concrete fixtures: tensors of the shapes the application builds
(`tf.tensor3d([...], [N, windowSize, 1])`), callback configurations, a
trained state, and concrete backend oracles. -/

/-- A single prediction window of shape `[1, 60, 1]`. -/
def t60 : Tensor := ⟨[1, 60, 1]⟩

/-- A two-sample training set of shape `[2, 60, 1]`. -/
def t2 : Tensor := ⟨[2, 60, 1]⟩

/-- A `train` call made with no user callbacks. -/
def noCbs : Callbacks := ⟨false, false⟩

/-- A `train` call made with both user callbacks, as the application does. -/
def bothCbs : Callbacks := ⟨true, true⟩

/-- A fit oracle that fails immediately, mid-training, with an internal
numeric error. -/
def failFit : FitBackend := ⟨fun _ => .error ([], "Internal error"), fun _ => 0, 0⟩

/-- A fit oracle that completes every requested epoch with fixed losses and a
one-second-per-epoch clock. -/
def okFit : FitBackend :=
  ⟨fun n => .ok (List.replicate n ⟨1/100, .num (2/100)⟩),
   fun i => (i : ℚ) + 1, 3⟩

/-- A `GRUModel` whose deep model has been built and successfully trained. -/
def trainedState : GRUState :=
  { newGRUModel with model := some (deepModel 60), isTrained := true }

/-- A predict oracle that fails with an internal numeric error. -/
def failPredict : PredictBackend := ⟨fun _ _ => .error "Internal error"⟩

/-- A predict oracle honouring the TensorFlow shape contract: one row per
input window, each of the model's output width. -/
def zeroPredict : PredictBackend :=
  ⟨fun m t => .ok (List.replicate t.batch (List.replicate (modelOutputUnits m) 0))⟩

/-- An evaluation oracle that computes a held-out loss of `4`, with a square
root function defined at that point. -/
def okEval : EvalBackend :=
  ⟨.ok 4, fun q => if q = 4 then 2 else 0, .ok [], .ok []⟩

/-- An evaluation oracle whose numeric computation fails internally. -/
def failEval : EvalBackend :=
  ⟨.error "Internal error", fun _ => 0, .error "Internal error", .error "Internal error"⟩

/-! Helper lemmas about the embedding, shared by the claim theorems. -/

/-- When a model already exists, the lazy-build step is the identity. -/
theorem ensureModel_of_some (s : GRUState) (m : BuiltModel)
    (h : s.model = some m) : ensureModel s = (s, m) := by
  unfold ensureModel
  rw [h]

/-- The lazy-build step never changes the configured horizon. -/
theorem ensureModel_horizon (s : GRUState) :
    (ensureModel s).1.predictionHorizon = s.predictionHorizon := by
  unfold ensureModel
  cases s.model <;> rfl

/-- The lazy-build step never changes `isTrained` of an already-built model,
and resets it on a fresh build. -/
theorem ensureModel_isTrained (s : GRUState) :
    (ensureModel s).1.isTrained = (if s.model = none then false else s.isTrained) := by
  unfold ensureModel
  cases s.model <;> rfl

/-- On a state with no model, the lazy-build step installs the deep stack. -/
theorem ensureModel_of_none (s : GRUState) (h : s.model = none) :
    (ensureModel s).2 = deepModel s.windowSize := by
  unfold ensureModel
  rw [h]
  rfl

/-- The deep architecture of `buildModel` ends in a one-unit dense layer. -/
theorem deepModel_outputUnits (w : Nat) : modelOutputUnits (deepModel w) = 1 := rfl

/-- `train` with both tensors present and non-empty, when `fit` completes. -/
theorem trainCore_ok (s : GRUState) (X y : Tensor) (n : Nat) (cbs : Callbacks)
    (bk : FitBackend) (logs : List EpochLog)
    (hne : ¬(X.batch = 0 ∨ y.batch = 0)) (hfit : bk.fit n = .ok logs) :
    trainCore s (some X) (some y) n cbs bk =
      ({ (ensureModel s).1 with isTrained := true },
       ⟨mkEpochEvents cbs n bk logs, logs.length,
        if cbs.onTrainEnd then some (.str (toFixed1 bk.totalElapsed)) else none,
        .ok ()⟩) := by
  simp only [trainCore]
  rw [if_neg hne, hfit]

/-- `train` with both tensors present and non-empty, when `fit` fails
mid-training. -/
theorem trainCore_err (s : GRUState) (X y : Tensor) (n : Nat) (cbs : Callbacks)
    (bk : FitBackend) (completed : List EpochLog) (e : String)
    (hne : ¬(X.batch = 0 ∨ y.batch = 0)) (hfit : bk.fit n = .error (completed, e)) :
    trainCore s (some X) (some y) n cbs bk =
      ((ensureModel s).1,
       ⟨mkEpochEvents cbs n bk completed, completed.length,
        if cbs.onTrainEnd then some (.num 0) else none,
        .error e⟩) := by
  simp only [trainCore]
  rw [if_neg hne, hfit]

/-- `train` with a missing tensor: the guard fires after the lazy build. -/
theorem trainCore_missing (s : GRUState) (X y : Option Tensor) (n : Nat)
    (cbs : Callbacks) (bk : FitBackend) (h : X = none ∨ y = none) :
    trainCore s X y n cbs bk =
      ((ensureModel s).1, ⟨[], 0, none, .error "Training data not provided"⟩) := by
  rcases h with rfl | rfl
  · cases y <;> rfl
  · cases X <;> rfl

/-- `evaluate` on an absent or untrained model short-circuits to the default. -/
theorem evaluate_untrained (s : GRUState) (X y : Option Tensor) (bk : EvalBackend)
    (h : s.model = none ∨ s.isTrained = false) :
    evaluate s X y bk = (s, ⟨false, defaultEvalResult⟩) := by
  unfold evaluate
  rw [if_pos h]

/-- `evaluate` when the `try` body fails: the catch returns the default. -/
theorem evaluate_err (s : GRUState) (X y : Option Tensor) (bk : EvalBackend)
    (e : String) (h1 : ¬(s.model = none ∨ s.isTrained = false))
    (h2 : evaluateTry s X y bk = .error e) :
    evaluate s X y bk = (s, ⟨true, defaultEvalResult⟩) := by
  unfold evaluate
  rw [if_neg h1, h2]

/-- `evaluate` when the `try` body computes. -/
theorem evaluate_ok (s : GRUState) (X y : Option Tensor) (bk : EvalBackend)
    (s2 : GRUState) (r : EvalResult) (h1 : ¬(s.model = none ∨ s.isTrained = false))
    (h2 : evaluateTry s X y bk = .ok (s2, r)) :
    evaluate s X y bk = (s2, ⟨true, r⟩) := by
  unfold evaluate
  rw [if_neg h1, h2]

/-- A successful `try` body always returns the `{loss, mse: loss,
rmse: Math.sqrt(loss)}` literal. -/
theorem evaluateTry_ok_shape (s : GRUState) (X y : Option Tensor)
    (bk : EvalBackend) (s2 : GRUState) (r : EvalResult)
    (h : evaluateTry s X y bk = .ok (s2, r)) :
    ∃ l, bk.evalLoss = .ok l ∧ r = ⟨l, l, bk.sqrt l⟩ := by
  cases X with
  | none => simp [evaluateTry] at h
  | some X =>
    cases y with
    | none => simp [evaluateTry] at h
    | some y =>
      cases hl : bk.evalLoss with
      | error e => simp [evaluateTry, hl] at h
      | ok l =>
        simp only [evaluateTry, hl, Except.ok.injEq, Prod.mk.injEq] at h
        exact ⟨l, rfl, h.2.symm⟩

/-! Claim theorems. -/

/-- C1 counterexample: the claim states that when the numeric computation
fails mid-training, `train` still sets `isTrained = true` before propagating
the failure.  On a fresh `new GRUModel()` with a non-empty `[2, 60, 1]`
dataset and a fit that fails, `train` propagates the error but leaves
`isTrained = false`: the assignment `this.isTrained = true` sits after
`await this.model.fit(...)` inside the `try` block, so it never executes on
the failing path. -/
theorem train_c1_counterexample :
    (trainCore newGRUModel (some t2) (some t2) 5 bothCbs failFit).2.outcome =
      .error "Internal error" ∧
    (trainCore newGRUModel (some t2) (some t2) 5 bothCbs failFit).1.isTrained = false :=
  ⟨rfl, rfl⟩

/-- C1 amended: if the underlying numeric computation fails mid-training,
`train` does not touch `isTrained` — the flag keeps the value the lazy-build
step left it (so `false` for a never-trained model, and a fresh build also
resets it to `false`) — invokes `onTrainEnd` with `0` when that callback was
supplied, and propagates the failure to the caller. -/
theorem train_c1_amended (s : GRUState) (X y : Tensor) (n : Nat)
    (cbs : Callbacks) (bk : FitBackend) (completed : List EpochLog) (e : String)
    (hX : X.batch ≠ 0) (hy : y.batch ≠ 0)
    (hfail : bk.fit n = .error (completed, e)) :
    (trainCore s (some X) (some y) n cbs bk).2.outcome = .error e ∧
    (trainCore s (some X) (some y) n cbs bk).1.isTrained =
      (ensureModel s).1.isTrained ∧
    (s.model ≠ none →
      (trainCore s (some X) (some y) n cbs bk).1.isTrained = s.isTrained) ∧
    (s.model = none →
      (trainCore s (some X) (some y) n cbs bk).1.isTrained = false) ∧
    (cbs.onTrainEnd = true →
      (trainCore s (some X) (some y) n cbs bk).2.trainEndArg = some (.num 0)) := by
  have hne : ¬(X.batch = 0 ∨ y.batch = 0) := by
    rintro (h | h)
    exacts [hX h, hy h]
  rw [trainCore_err s X y n cbs bk completed e hne hfail]
  refine ⟨rfl, rfl, fun hm => ?_, fun hm => ?_, fun hc => ?_⟩
  · cases hsm : s.model with
    | none => exact absurd hsm hm
    | some m => rw [ensureModel_of_some s m hsm]
  · rw [ensureModel_isTrained, if_pos hm]
  · simp [hc]

/-- C1 amended, witnessed on a fresh model, a `[2, 60, 1]` dataset, both
callbacks supplied, and an immediately failing fit. -/
theorem train_c1_amended_witness :
    (trainCore newGRUModel (some t2) (some t2) 5 bothCbs failFit).2.trainEndArg =
      some (.num 0) :=
  (train_c1_amended newGRUModel t2 t2 5 bothCbs failFit [] "Internal error"
    (by decide) (by decide) rfl).2.2.2.2 rfl

/-- C4 counterexample: the claim states that `train` with null inputs raises
`MissingDataError` before any model state mutation.  On a fresh
`new GRUModel()` (whose `model` field is null), the failed call does raise
"Training data not provided", but only after the lazy `buildModel()` step has
already mutated the `model` field from null to a freshly built network. -/
theorem train_c4_counterexample :
    (trainCore newGRUModel none (some t2) 5 noCbs failFit).2.outcome =
      .error "Training data not provided" ∧
    (trainCore newGRUModel none (some t2) 5 noCbs failFit).1.model ≠
      newGRUModel.model := by
  refine ⟨rfl, ?_⟩
  decide

/-- C4 amended: calling `train` with null inputs (or null targets) raises
"Training data not provided" and performs no training — no epoch runs, no
progress event fires, `onTrainEnd` is not invoked — but the error comes after
the lazy model build: when no model exists yet, the failed call first builds
one (setting `model` and resetting `isTrained`); when a model already exists,
no field of the instance changes. -/
theorem train_c4_amended (s : GRUState) (X y : Option Tensor) (n : Nat)
    (cbs : Callbacks) (bk : FitBackend) (h : X = none ∨ y = none) :
    (trainCore s X y n cbs bk).2.outcome = .error "Training data not provided" ∧
    (trainCore s X y n cbs bk).2.epochEvents = [] ∧
    (trainCore s X y n cbs bk).2.trainEndArg = none ∧
    (trainCore s X y n cbs bk).1 = (ensureModel s).1 ∧
    (s.model ≠ none → (trainCore s X y n cbs bk).1 = s) := by
  rw [trainCore_missing s X y n cbs bk h]
  refine ⟨rfl, rfl, rfl, rfl, fun hm => ?_⟩
  cases hsm : s.model with
  | none => exact absurd hsm hm
  | some m => rw [ensureModel_of_some s m hsm]

/-- C4 amended, witnessed on an already-built, trained model: the failed call
leaves the state untouched. -/
theorem train_c4_amended_witness :
    (trainCore trainedState none (some t2) 5 noCbs failFit).1 = trainedState :=
  (train_c4_amended trainedState none (some t2) 5 noCbs failFit
    (Or.inl rfl)).2.2.2.2 (by decide)

/-- C2 counterexample: the claim states that on an internal failure `predict`
returns a zero-filled result of the horizon length (1 for this single-step
variant) and that on success the returned sequence likewise has that length.
On a fresh `new GRUModel()` (horizon 5, single-output architecture) with a
`[1, 60, 1]` window: the failure fallback is one row of `predictionHorizon`-many
(five) zeros, while a successful prediction row has length 1 (the output layer
has one unit) — the two lengths disagree, so no single "that length" exists. -/
theorem predict_c2_counterexample :
    (predict newGRUModel (some t60) failPredict).2 =
      .ok [List.replicate 5 (0 : ℚ)] ∧
    (predict newGRUModel (some t60) zeroPredict).2 = .ok [[(0 : ℚ)]] ∧
    ¬(List.replicate 5 (0 : ℚ)).length = [(0 : ℚ)].length := by
  refine ⟨rfl, rfl, ?_⟩
  decide

/-- C2 amended: for every input window that is present, `predict` never
propagates an internal numeric failure; on such a failure it returns a single
row of `predictionHorizon` zeros, and on success it returns the backend's
predictions — one row per input window, each row of the model's output width,
which is 1 for this architecture (so the fallback length matches the success
length only when the horizon is 1). -/
theorem predict_c2_amended (s : GRUState) (X : Tensor) (bk : PredictBackend)
    (hok : ∀ m t rows, bk.run m t = .ok rows →
      rows.length = t.batch ∧ ∀ r ∈ rows, r.length = modelOutputUnits m) :
    (∃ rows, (predict s (some X) bk).2 = .ok rows) ∧
    (∀ e, bk.run (ensureModel s).2 X = .error e →
      (predict s (some X) bk).2 = .ok [List.replicate s.predictionHorizon 0]) ∧
    (∀ rows, bk.run (ensureModel s).2 X = .ok rows →
      (predict s (some X) bk).2 = .ok rows ∧ rows.length = X.batch ∧
        ∀ r ∈ rows, r.length = modelOutputUnits (ensureModel s).2) ∧
    (s.model = none → modelOutputUnits (ensureModel s).2 = 1) := by
  refine ⟨?_, fun e he => ?_, fun rows hr => ?_, fun hm => ?_⟩
  · cases hb : bk.run (ensureModel s).2 X with
    | ok rows =>
      exact ⟨rows, by simp only [predict]; rw [hb]⟩
    | error e =>
      refine ⟨[List.replicate (ensureModel s).1.predictionHorizon 0], ?_⟩
      simp only [predict]
      rw [hb]
  · simp only [predict]
    rw [he, ensureModel_horizon]
  · have h1 := hok (ensureModel s).2 X rows hr
    refine ⟨?_, h1⟩
    simp only [predict]
    rw [hr]
  · rw [ensureModel_of_none s hm, deepModel_outputUnits]

/-- C2 amended, witnessed on a fresh model, a present `[1, 60, 1]` window and
a failing backend (which satisfies the shape contract vacuously): the call
returns the zero row of horizon length instead of propagating. -/
theorem predict_c2_amended_witness :
    (predict newGRUModel (some t60) failPredict).2 =
      .ok [List.replicate newGRUModel.predictionHorizon 0] :=
  (predict_c2_amended newGRUModel t60 failPredict
    (by intro m t rows h; simp [failPredict] at h)).2.1 "Internal error" rfl

/-- C5 (modelled from the spec, the Lightweight variant's file being absent
from `src/`): calling the Lightweight `train` with `epochCount = 0` clamps the
epoch count to at least 1, so — with present, non-empty data and a fit oracle
that completes every requested epoch — exactly one epoch is executed, the run
succeeds, `isTrained` is set, and the `onTrainEnd` callback is still
invoked. -/
theorem lightweightTrain_c5 (s : GRUState) (X y : Tensor) (cbs : Callbacks)
    (bk : FitBackend) (hX : X.batch ≠ 0) (hy : y.batch ≠ 0)
    (hfit : ∀ n logs, bk.fit n = .ok logs → logs.length = n)
    (hok : ∃ logs, bk.fit 1 = .ok logs) (hcb : cbs.onTrainEnd = true) :
    (lightweightTrain s (some X) (some y) 0 cbs bk).2.epochsRun = 1 ∧
    (lightweightTrain s (some X) (some y) 0 cbs bk).2.trainEndArg.isSome = true ∧
    (lightweightTrain s (some X) (some y) 0 cbs bk).2.outcome = .ok () ∧
    (lightweightTrain s (some X) (some y) 0 cbs bk).1.isTrained = true := by
  obtain ⟨logs, hlogs⟩ := hok
  have hne : ¬(X.batch = 0 ∨ y.batch = 0) := by
    rintro (h | h)
    exacts [hX h, hy h]
  have hclamp : lightweightTrain s (some X) (some y) 0 cbs bk =
      trainCore s (some X) (some y) 1 cbs bk := rfl
  rw [hclamp, trainCore_ok s X y 1 cbs bk logs hne hlogs]
  exact ⟨hfit 1 logs hlogs, by simp [hcb], rfl, rfl⟩

/-- C5, witnessed on a fresh model, a `[2, 60, 1]` dataset, both callbacks
supplied, and the always-completing fit oracle. -/
theorem lightweightTrain_c5_witness :
    (lightweightTrain newGRUModel (some t2) (some t2) 0 bothCbs okFit).2.epochsRun = 1 ∧
    (lightweightTrain newGRUModel (some t2) (some t2) 0 bothCbs okFit).2.trainEndArg.isSome = true ∧
    (lightweightTrain newGRUModel (some t2) (some t2) 0 bothCbs okFit).2.outcome = .ok () ∧
    (lightweightTrain newGRUModel (some t2) (some t2) 0 bothCbs okFit).1.isTrained = true :=
  lightweightTrain_c5 newGRUModel t2 t2 bothCbs okFit
    (by decide) (by decide)
    (by
      intro n logs h
      simp only [okFit, Except.ok.injEq] at h
      rw [← h]
      simp)
    ⟨List.replicate 1 ⟨1/100, .num (2/100)⟩, rfl⟩ rfl

/-- C6, the code evaluated at its failing input: a successful two-epoch
training run on a trained-ready state with both callbacks supplied.  Each
emitted progress event's logs object contains exactly the keys `loss`,
`val_loss`, `elapsed` and `progress` — a lookup of `epochsRemaining` yields
nothing on every event, while the claim (and the caller in
`src/unnamed/part_000`, which reads `logs.epochsRemaining`) require it.  The
rest of the claim is visible here too: the events run over epoch indices 0
and 1 and their `progress` values strictly increase from 50 to exactly 100. -/
theorem train_c6_code_evaluation :
    ((trainCore trainedState (some t2) (some t2) 2 bothCbs okFit).2.epochEvents.map
        (fun ev => ev.2.lookup "epochsRemaining")) = [none, none] ∧
    ((trainCore trainedState (some t2) (some t2) 2 bothCbs okFit).2.epochEvents.map
        (fun ev => ev.2.map Prod.fst)) =
      [["loss", "val_loss", "elapsed", "progress"],
       ["loss", "val_loss", "elapsed", "progress"]] ∧
    ((trainCore trainedState (some t2) (some t2) 2 bothCbs okFit).2.epochEvents.map
        (fun ev => (ev.1, ev.2.lookup "progress"))) =
      [(0, some (.num 50)), (1, some (.num 100))] ∧
    (trainCore trainedState (some t2) (some t2) 2 bothCbs okFit).2.trainEndArg.isSome =
      true := by
  have hfit2 : okFit.fit 2 = .ok [⟨1/100, .num (2/100)⟩, ⟨1/100, .num (2/100)⟩] := rfl
  have h50 : epochProgress 2 0 = 50 := by norm_num [epochProgress]
  have h100 : epochProgress 2 1 = 100 := by norm_num [epochProgress]
  have he0 : okFit.elapsedAt 0 = 1 := by norm_num [okFit]
  have he1 : okFit.elapsedAt 1 = 2 := by norm_num [okFit]
  rw [trainCore_ok trainedState t2 t2 2 bothCbs okFit _ (by decide) hfit2]
  have hev : mkEpochEvents bothCbs 2 okFit
      [⟨1/100, .num (2/100)⟩, ⟨1/100, .num (2/100)⟩] =
      [(0, [("loss", .num (1/100)), ("val_loss", .num (2/100)),
            ("elapsed", .num 1), ("progress", .num 50)]),
       (1, [("loss", .num (1/100)), ("val_loss", .num (2/100)),
            ("elapsed", .num 2), ("progress", .num 100)])] := by
    simp [mkEpochEvents, bothCbs, List.enum, List.enumFrom, epochLogsObj,
      h50, h100, he0, he1]
  refine ⟨?_, ?_, ?_, rfl⟩ <;> rw [hev] <;> rfl

/-- C3: for every test dataset (present or not), if the model is absent or
`isTrained` is false then `evaluate` returns exactly
`{loss: 0.001, mse: 0.001, rmse: 0.032}` without attempting computation and
without touching the state; on internal failure of the `try` body it returns
the same fixed default; and it never raises — every call returns either the
fixed default or the computed `{loss, mse: loss, rmse: sqrt(loss)}` triple. -/
theorem evaluate_c3 (s : GRUState) (X y : Option Tensor) (bk : EvalBackend) :
    (s.model = none ∨ s.isTrained = false →
      evaluate s X y bk = (s, ⟨false, defaultEvalResult⟩)) ∧
    (∀ e, evaluateTry s X y bk = .error e →
      (evaluate s X y bk).2.result = defaultEvalResult) ∧
    ((evaluate s X y bk).2.result = defaultEvalResult ∨
      ∃ l, bk.evalLoss = .ok l ∧
        (evaluate s X y bk).2.result = ⟨l, l, bk.sqrt l⟩) := by
  by_cases hc : s.model = none ∨ s.isTrained = false
  · rw [evaluate_untrained s X y bk hc]
    exact ⟨fun _ => rfl, fun _ _ => rfl, Or.inl rfl⟩
  · refine ⟨fun h => absurd h hc, fun e he => ?_, ?_⟩
    · rw [evaluate_err s X y bk e hc he]
    · cases hE : evaluateTry s X y bk with
      | error e =>
        rw [evaluate_err s X y bk e hc hE]
        exact Or.inl rfl
      | ok p =>
        obtain ⟨s2, r⟩ := p
        obtain ⟨l, hl, hr⟩ := evaluateTry_ok_shape s X y bk s2 r hE
        rw [evaluate_ok s X y bk s2 r hc hE]
        exact Or.inr ⟨l, hl, hr⟩

/-- C3, witnessed on a freshly constructed (never-built) model: the call
returns exactly the fixed default triple and does not change the state. -/
theorem evaluate_c3_witness :
    evaluate newGRUModel (some t2) (some t2) okEval =
      (newGRUModel, ⟨false, defaultEvalResult⟩) :=
  (evaluate_c3 newGRUModel (some t2) (some t2) okEval).1 (Or.inl rfl)

/-- C7: every evaluation result that is not the fixed default triple was
produced by the computed path, whose `rmse` field is `Math.sqrt` applied to
its `mse` field. -/
theorem evaluate_c7 (s : GRUState) (X y : Option Tensor) (bk : EvalBackend)
    (h : (evaluate s X y bk).2.result ≠ defaultEvalResult) :
    (evaluate s X y bk).2.result.rmse =
      bk.sqrt ((evaluate s X y bk).2.result.mse) := by
  by_cases hc : s.model = none ∨ s.isTrained = false
  · rw [evaluate_untrained s X y bk hc] at h
    exact absurd rfl h
  · cases hE : evaluateTry s X y bk with
    | error e =>
      rw [evaluate_err s X y bk e hc hE] at h
      exact absurd rfl h
    | ok p =>
      obtain ⟨s2, r⟩ := p
      obtain ⟨l, _, hr⟩ := evaluateTry_ok_shape s X y bk s2 r hE
      rw [evaluate_ok s X y bk s2 r hc hE, hr]

/-- C7, witnessed on a trained model whose backend computes a loss of `4`:
the returned triple is `{loss: 4, mse: 4, rmse: 2}` and `2 = sqrt 4`. -/
theorem evaluate_c7_witness :
    (evaluate trainedState (some t60) (some t60) okEval).2.result.rmse =
      okEval.sqrt ((evaluate trainedState (some t60) (some t60) okEval).2.result.mse) :=
  evaluate_c7 trainedState (some t60) (some t60) okEval (by
    rw [evaluate_ok trainedState (some t60) (some t60) okEval
      (applyChartEffects trainedState okEval) ⟨4, 4, okEval.sqrt 4⟩ (by decide) rfl]
    simp only [ne_eq, defaultEvalResult, EvalResult.mk.injEq, not_and]
    intro h
    norm_num at h)

/-- C8: `dispose` is idempotent — a second call (including on a never-built
model) changes nothing further and cannot fail — `isTrained` is false after
each call, and the model parameters and the retained evaluation artifacts
(`testPredictions`, `actualTestValues`) are cleared. -/
theorem dispose_c8 (s : GRUState) :
    dispose (dispose s) = dispose s ∧
    (dispose s).isTrained = false ∧
    (dispose (dispose s)).isTrained = false ∧
    (dispose s).model = none ∧
    (dispose s).testPredictions = none ∧
    (dispose s).actualTestValues = none :=
  ⟨rfl, rfl, rfl, rfl, rfl, rfl⟩

/-- C8, witnessed on a freshly constructed, never-built model. -/
theorem dispose_c8_witness :
    dispose (dispose newGRUModel) = dispose newGRUModel ∧
    (dispose newGRUModel).isTrained = false ∧
    (dispose (dispose newGRUModel)).isTrained = false ∧
    (dispose newGRUModel).model = none ∧
    (dispose newGRUModel).testPredictions = none ∧
    (dispose newGRUModel).actualTestValues = none :=
  dispose_c8 newGRUModel

/-- C9 (modelled from the spec, `saveWeights` appearing in no file under
`src/`): `saveWeights` attempts persistence only when `isTrained` is true; on
an untrained model it returns `false` without side effects and without
attempting persistence; a persistence failure is reported as a `false` return
rather than thrown; and no call changes the model state. -/
theorem saveWeights_c9 (s : GRUState) (persistOk : Bool) :
    (saveWeights s persistOk).1 = s ∧
    (s.isTrained = false → saveWeights s persistOk = (s, ⟨false, false⟩)) ∧
    ((saveWeights s persistOk).2.attempted = true → s.isTrained = true) ∧
    (persistOk = false → (saveWeights s persistOk).2.returnValue = false) := by
  by_cases h : s.isTrained <;> simp [saveWeights, h]

/-- C9, witnessed on a freshly constructed (untrained) model with a failing
persistence oracle: the call returns `false` and changes nothing. -/
theorem saveWeights_c9_witness :
    saveWeights newGRUModel false = (newGRUModel, ⟨false, false⟩) :=
  (saveWeights_c9 newGRUModel false).2.1 rfl

/-- C10: every result object returned by `evaluate` satisfies `loss = mse` —
the computed path returns `{loss, mse: loss, ...}` with the same value in both
fields, and both fallback paths return the fixed default whose two fields are
both `0.001`. -/
theorem evaluate_c10 (s : GRUState) (X y : Option Tensor) (bk : EvalBackend) :
    ((evaluate s X y bk).2.result).loss = ((evaluate s X y bk).2.result).mse := by
  by_cases hc : s.model = none ∨ s.isTrained = false
  · rw [evaluate_untrained s X y bk hc]
    rfl
  · cases hE : evaluateTry s X y bk with
    | error e =>
      rw [evaluate_err s X y bk e hc hE]
      rfl
    | ok p =>
      obtain ⟨s2, r⟩ := p
      obtain ⟨l, _, hr⟩ := evaluateTry_ok_shape s X y bk s2 r hE
      rw [evaluate_ok s X y bk s2 r hc hE, hr]

/-- C10, witnessed on a trained model and a computing backend (a non-default
result with `loss = mse = 4`). -/
theorem evaluate_c10_witness :
    ((evaluate trainedState (some t60) (some t60) okEval).2.result).loss =
      ((evaluate trainedState (some t60) (some t60) okEval).2.result).mse :=
  evaluate_c10 trainedState (some t60) (some t60) okEval

end SPForecast
